import Mathlib

/-!
Verification of the iregex pattern-builder core (src/iregex/regex.py).

A pattern value is an ordered list of fragments (each fragment a raw piece
of pattern text) together with a list of registered capture-group names.
Rendering a value joins its fragments.  Python strings are modelled as
lists of characters, so Python slicing and indexing translate to
List.take / List.drop / List.dropLast / List.getLast?.

Python exceptions are modelled with Except over the error kinds the module
raises; indexing an empty string (txt[-1]) is modelled as an IndexError.
The repetition constants of iregex/consts.py render as "*", "+" and "?",
and those rendered fragments are what the quantifier methods append.
-/

inductive Err where
  | setIntersection
  | nonEmpty
  | notACharacter
  | alreadyRepeating
  | alreadyCaptured
  | valueError
  | indexError
deriving DecidableEq, Repr

structure Regex where
  data : List (List Char)
  capture_groups : List String
deriving DecidableEq, Repr

instance : DecidableEq (Except Err Regex) := fun a b =>
  match a, b with
  | .ok x, .ok y => if h : x = y then .isTrue (by rw [h]) else .isFalse (by simp [h])
  | .error x, .error y => if h : x = y then .isTrue (by rw [h]) else .isFalse (by simp [h])
  | .ok _, .error _ => .isFalse (by simp)
  | .error _, .ok _ => .isFalse (by simp)

/-- Python Regex.__init__: `self._data = [regex_str] if regex_str else []`
(both None and the empty string are falsy). -/
def Regex.init (s : Option String) : Regex :=
  match s with
  | none => ⟨[], []⟩
  | some t => ⟨if t = "" then [] else [t.data], []⟩

/-- Python Regex.__str__: the ordered concatenation of the fragments. -/
def Regex.render (v : Regex) : List Char := v.data.flatten

/-- Python Regex._is_repeating: `txt_[-1] in ("?", "*", "+", "}")`; indexing
an empty string raises IndexError. -/
def Regex._is_repeating (t : List Char) : Except Err Bool :=
  match t.getLast? with
  | none => .error .indexError
  | some c => .ok (c == '?' || c == '*' || c == '+' || c == '\x7d')

/-- Python Regex._is_character: length 1, or length 2 starting with a backslash. -/
def Regex._is_character (t : List Char) : Bool :=
  t.length == 1 || (t.length == 2 && t.take 1 == ['\\'])

/-- Python Regex._is_character_group: length at least 2, first char a left
bracket, last char a right bracket. -/
def Regex._is_character_group (t : List Char) : Bool :=
  decide (2 ≤ t.length) && t.take 1 == ['['] && t.getLast? == some ']'

/-- Python Regex._is_named_capture_group: length at least 5, starts with
the three characters left-paren question-mark less-than, ends with a
right paren.  (No check on the character after the prefix.) -/
def Regex._is_named_capture_group (t : List Char) : Bool :=
  decide (5 ≤ t.length) && t.take 3 == ['(', '?', '<'] && t.getLast? == some ')'

/-- Python Regex._is_non_capture_group. -/
def Regex._is_non_capture_group (t : List Char) : Bool :=
  !Regex._is_named_capture_group t &&
    (decide (4 ≤ t.length) && t.take 3 == ['(', '?', ':'] && t.getLast? == some ')')

/-- Python Regex._is_capture_group. -/
def Regex._is_capture_group (t : List Char) : Bool :=
  !Regex._is_named_capture_group t && !Regex._is_non_capture_group t &&
    (decide (2 ≤ t.length) && t.take 1 == ['('] && t.getLast? == some ')')

/-- Python Regex.make_non_capture_group.  Python `str(out)[m:-1]` is
`(s.drop m).dropLast` here. -/
def Regex.make_non_capture_group (v : Regex) : Except Err Regex :=
  let s := Regex.render v
  if Regex._is_character s || Regex._is_character_group s || Regex._is_non_capture_group s then
    .ok v
  else if Regex._is_named_capture_group s then
    .error .alreadyCaptured
  else if Regex._is_capture_group s then
    .ok { v with data := [['(', '?', ':'], (s.drop 1).dropLast, [')']] }
  else
    .ok { v with data := ['(', '?', ':'] :: v.data ++ [[')']] }

/-- Python Regex.make_capture_group. -/
def Regex.make_capture_group (v : Regex) : Except Err Regex :=
  let s := Regex.render v
  if Regex._is_named_capture_group s then
    .error .alreadyCaptured
  else if Regex._is_capture_group s then
    .ok v
  else if Regex._is_non_capture_group s then
    .ok { v with data := [['('], (s.drop 3).dropLast, [')']] }
  else
    .ok { v with data := ['('] :: v.data ++ [[')']] }

/-- Python Regex.make_named_capture_group.  Note: only the final branch
(the one that wraps a value that is not yet any kind of group) appends
the name to the capture-group list. -/
def Regex.make_named_capture_group (v : Regex) (name : String) : Except Err Regex :=
  let s := Regex.render v
  if Regex._is_non_capture_group s then
    .ok { v with data := [['(', '?', '<'], name.data, ['>'], (s.drop 3).dropLast, [')']] }
  else if Regex._is_capture_group s then
    .ok { v with data := [['(', '?', '<'], name.data, ['>'], (s.drop 1).dropLast, [')']] }
  else if Regex._is_named_capture_group s then
    .error .alreadyCaptured
  else
    .ok { data := ['(', '?', '<'] :: name.data :: ['>'] :: v.data ++ [[')']],
          capture_groups := v.capture_groups ++ [name] }

/-- Python Regex.make_lookahead. -/
def Regex.make_lookahead (v : Regex) : Regex :=
  { v with data := ['(', '?', '='] :: v.data ++ [[')']] }

/-- Python Regex.make_lookbehind. -/
def Regex.make_lookbehind (v : Regex) : Regex :=
  { v with data := ['(', '?', '<', '='] :: v.data ++ [[')']] }

/-- Python Regex.make_negative_lookahead. -/
def Regex.make_negative_lookahead (v : Regex) : Regex :=
  { v with data := ['(', '?', '!'] :: v.data ++ [[')']] }

/-- Python Regex.make_negative_lookbehind. -/
def Regex.make_negative_lookbehind (v : Regex) : Regex :=
  { v with data := ['(', '?', '<', '!'] :: v.data ++ [[')']] }

/-- Python Regex.zero_or_more_repetitions. -/
def Regex.zero_or_more_repetitions (v : Regex) : Except Err Regex :=
  match Regex._is_repeating (Regex.render v) with
  | .error e => .error e
  | .ok true => .error .alreadyRepeating
  | .ok false =>
    match Regex.make_non_capture_group v with
    | .error e => .error e
    | .ok out => .ok { out with data := out.data ++ [['*']] }

/-- Python Regex.one_or_more_repetitions. -/
def Regex.one_or_more_repetitions (v : Regex) : Except Err Regex :=
  match Regex._is_repeating (Regex.render v) with
  | .error e => .error e
  | .ok true => .error .alreadyRepeating
  | .ok false =>
    match Regex.make_non_capture_group v with
    | .error e => .error e
    | .ok out => .ok { out with data := out.data ++ [['+']] }

/-- Python Regex.optional. -/
def Regex.optional (v : Regex) : Except Err Regex :=
  match Regex._is_repeating (Regex.render v) with
  | .error e => .error e
  | .ok true => .error .alreadyRepeating
  | .ok false =>
    match Regex.make_non_capture_group v with
    | .error e => .error e
    | .ok out => .ok { out with data := out.data ++ [['?']] }

/-- Python Regex.m_to_n_repetitions. -/
def Regex.m_to_n_repetitions (v : Regex) (m n : Int) : Except Err Regex :=
  match Regex._is_repeating (Regex.render v) with
  | .error e => .error e
  | .ok true => .error .alreadyRepeating
  | .ok false =>
    match Regex.make_non_capture_group v with
    | .error e => .error e
    | .ok out =>
      if m = 0 ∧ n = 1 then
        .ok { out with data := out.data ++ [['?']] }
      else
        .ok { out with data :=
          out.data ++ ['\x7b' :: (toString m).data ++ [','] ++ (toString n).data ++ ['\x7d']] }

/-- Python Regex.exactly_m_repetitions. -/
def Regex.exactly_m_repetitions (v : Regex) (m : Int) : Except Err Regex :=
  match Regex._is_repeating (Regex.render v) with
  | .error e => .error e
  | .ok true => .error .alreadyRepeating
  | .ok false =>
    match Regex.make_non_capture_group v with
    | .error e => .error e
    | .ok out => .ok { out with data := out.data ++ ['\x7b' :: (toString m).data ++ ['\x7d']] }

/-- Python Regex.m_or_more_repetitions (the repetition guard runs before
the dispatch on m). -/
def Regex.m_or_more_repetitions (v : Regex) (m : Int) : Except Err Regex :=
  match Regex._is_repeating (Regex.render v) with
  | .error e => .error e
  | .ok true => .error .alreadyRepeating
  | .ok false =>
    if m = 0 then Regex.zero_or_more_repetitions v
    else if m = 1 then Regex.one_or_more_repetitions v
    else if m < 0 then .error .valueError
    else
      match Regex.make_non_capture_group v with
      | .error e => .error e
      | .ok out => .ok { out with data := out.data ++ ['\x7b' :: (toString m).data ++ [',', '\x7d']] }

/-- Python Regex.any_char.  Arguments are modelled by their rendered text
(the method converts each argument with str before use).  All arguments
are validated as characters; with more than one argument the class is
appended to the existing fragments, otherwise the fragment list is
replaced by the argument list itself. -/
def Regex.any_char (v : Regex) (char : List (List Char)) : Except Err Regex :=
  if char.all (fun t => Regex._is_character t) then
    if 1 < char.length then
      .ok { v with data := (v.data ++ [['[']] ++ char) ++ [[']']] }
    else
      .ok { v with data := char }
  else .error .notACharacter

/-- Python Regex.exclude_char. -/
def Regex.exclude_char (v : Regex) (char : List (List Char)) : Except Err Regex :=
  if char.all (fun t => Regex._is_character t) then
    .ok { v with data := (v.data ++ [['[', '^']] ++ char) ++ [[']']] }
  else .error .notACharacter

/-- Python Regex.__add__ restricted to two Regex operands: raises
SetIntersectionError when the capture-group name sets intersect, otherwise
concatenates fragments and name lists. -/
def Regex.add (a b : Regex) : Except Err Regex :=
  if a.capture_groups.any (fun n => b.capture_groups.contains n) then
    .error .setIntersection
  else
    .ok { data := a.data ++ b.data, capture_groups := a.capture_groups ++ b.capture_groups }

/-- Python Regex.__or__ restricted to two Regex operands: the other
operand's name list is checked first, then self's; then the alternation is
assembled, splicing away the outer delimiters of an operand that is shaped
as a non-capture group. -/
def Regex.or_op (a b : Regex) : Except Err Regex :=
  if b.capture_groups ≠ [] then .error .nonEmpty
  else if a.capture_groups ≠ [] then .error .nonEmpty
  else
    let sa := Regex.render a
    let sb := Regex.render b
    if Regex._is_non_capture_group sa then
      if Regex._is_non_capture_group sb then
        .ok { data := [['(', '?', ':'], (sa.drop 3).dropLast, ['|'], (sb.drop 3).dropLast, [')']],
              capture_groups := [] }
      else
        .ok { data := ([['(', '?', ':'], (sa.drop 3).dropLast, ['|']] ++ b.data) ++ [[')']],
              capture_groups := [] }
    else if Regex._is_non_capture_group sb then
      .ok { data := [['(', '?', ':'], sa, ['|'], (sb.drop 3).dropLast, [')']],
            capture_groups := [] }
    else
      .ok { data := ['(', '?', ':'] :: a.data ++ ['|'] :: b.data ++ [[')']],
            capture_groups := [] }

/-- The composite zeroOrMore(oneOrMore(x)), with the inner exception
propagating as in Python. -/
def Regex.zero_of_one (v : Regex) : Except Err Regex :=
  match Regex.one_or_more_repetitions v with
  | .error e => .error e
  | .ok w => Regex.zero_or_more_repetitions w

/-!
Heap-level model of the same methods, for the immutability / frame claim.

Python list objects live in a heap addressed by naturals; a Regex object
is a pair of references, one to its fragment list and one to its
capture-group name list (names are stored as character lists here).
Attribute reassignment (out._data = ...) allocates a fresh list object and
repoints the reference; in-place list mutation (append, +=) writes through
the existing reference.  Regex.__copy__ copies both lists into fresh cells
(copy(self._data), copy(self._capture_groups)), so every method below
starts from a copy or builds a fresh object, exactly as the source does.
-/

structure Heap where
  mem : Nat → List (List Char)
  next : Nat

structure Ref where
  dataRef : Nat
  groupsRef : Nat
deriving DecidableEq, Repr

def St.read (h : Heap) (r : Nat) : List (List Char) := h.mem r

def St.write (h : Heap) (r : Nat) (c : List (List Char)) : Heap :=
  ⟨fun i => if i = r then c else h.mem i, h.next⟩

def St.alloc (h : Heap) (c : List (List Char)) : Heap × Nat :=
  (⟨fun i => if i = h.next then c else h.mem i, h.next + 1⟩, h.next)

/-- A reference is valid when both its cells are allocated. -/
def St.valid (h : Heap) (v : Ref) : Prop :=
  v.dataRef < h.next ∧ v.groupsRef < h.next

/-- Both lists of a value are unchanged between two heaps. -/
def St.preserved (h h2 : Heap) (v : Ref) : Prop :=
  St.read h2 v.dataRef = St.read h v.dataRef ∧ St.read h2 v.groupsRef = St.read h v.groupsRef

/-- The heap h2 arises from h by touching only addresses at or above the
allocation frontier of h: the frontier has not receded and every cell
below it is unchanged. -/
def St.evolves (h h2 : Heap) : Prop :=
  h.next ≤ h2.next ∧ ∀ r, r < h.next → St.read h2 r = St.read h r

/-- Python Regex.__copy__: a fresh object whose two lists are copies of the
originals. -/
def St.copyReg (h : Heap) (v : Ref) : Heap × Ref :=
  let p := St.alloc h (St.read h v.dataRef)
  let q := St.alloc p.1 (St.read h v.groupsRef)
  (q.1, ⟨p.2, q.2⟩)

/-- Rendered text of the value behind a reference. -/
def St.render_of (h : Heap) (v : Ref) : List Char := (St.read h v.dataRef).flatten

/-- Python Regex.whitespace: copy then append one fragment in place. -/
def St.whitespace (h : Heap) (v : Ref) : Heap × Except Err Ref :=
  let p := St.copyReg h v
  let out := p.2
  (St.write p.1 out.dataRef (St.read p.1 out.dataRef ++ ["\\s*".data]), .ok out)

/-- Python Regex.newlines: copy then append one fragment in place. -/
def St.newlines (h : Heap) (v : Ref) : Heap × Except Err Ref :=
  let p := St.copyReg h v
  let out := p.2
  (St.write p.1 out.dataRef (St.read p.1 out.dataRef ++ ["(?:\\n|\\r\\n?)*".data]), .ok out)

/-- Python Regex.anything: literal(ANY + ZERO_OR_MORE), i.e. __add__ with a
temporary two-fragment value; builds a fresh object. -/
def St.anything (h : Heap) (v : Ref) : Heap × Except Err Ref :=
  let p := St.alloc h (St.read h v.dataRef ++ [['.'], ['*']])
  let q := St.alloc p.1 (St.read h v.groupsRef ++ [])
  (q.1, .ok ⟨p.2, q.2⟩)

/-- Python Regex.make_non_capture_group at heap level. -/
def St.make_non_capture_group (h : Heap) (v : Ref) : Heap × Except Err Ref :=
  let p := St.copyReg h v
  let out := p.2
  let s := St.render_of h v
  if Regex._is_character s || Regex._is_character_group s || Regex._is_non_capture_group s then
    (St.write p.1 out.dataRef (St.read p.1 out.dataRef), .ok out)
  else if Regex._is_named_capture_group s then
    (p.1, .error .alreadyCaptured)
  else if Regex._is_capture_group s then
    let q := St.alloc p.1 [['(', '?', ':'], (s.drop 1).dropLast, [')']]
    (q.1, .ok ⟨q.2, out.groupsRef⟩)
  else
    let q := St.alloc p.1 (['(', '?', ':'] :: St.read p.1 out.dataRef ++ [[')']])
    (q.1, .ok ⟨q.2, out.groupsRef⟩)

/-- Python Regex.make_capture_group at heap level: the early raise and the
early return of self itself both happen before the copy is made. -/
def St.make_capture_group (h : Heap) (v : Ref) : Heap × Except Err Ref :=
  let s := St.render_of h v
  if Regex._is_named_capture_group s then
    (h, .error .alreadyCaptured)
  else if Regex._is_capture_group s then
    (h, .ok v)
  else
    let p := St.copyReg h v
    let out := p.2
    if Regex._is_non_capture_group s then
      let q := St.alloc p.1 [['('], (s.drop 3).dropLast, [')']]
      (q.1, .ok ⟨q.2, out.groupsRef⟩)
    else
      let q := St.alloc p.1 (['('] :: St.read p.1 out.dataRef ++ [[')']])
      (q.1, .ok ⟨q.2, out.groupsRef⟩)

/-- Python Regex.make_named_capture_group at heap level; the final branch
also appends the name to the copied capture-group list in place. -/
def St.make_named_capture_group (h : Heap) (v : Ref) (name : List Char) : Heap × Except Err Ref :=
  let p := St.copyReg h v
  let out := p.2
  let s := St.render_of h v
  if Regex._is_non_capture_group s then
    let q := St.alloc p.1 [['(', '?', '<'], name, ['>'], (s.drop 3).dropLast, [')']]
    (q.1, .ok ⟨q.2, out.groupsRef⟩)
  else if Regex._is_capture_group s then
    let q := St.alloc p.1 [['(', '?', '<'], name, ['>'], (s.drop 1).dropLast, [')']]
    (q.1, .ok ⟨q.2, out.groupsRef⟩)
  else if Regex._is_named_capture_group s then
    (p.1, .error .alreadyCaptured)
  else
    let q := St.alloc p.1 (['(', '?', '<'] :: name :: ['>'] :: St.read p.1 out.dataRef ++ [[')']])
    let h2 := St.write q.1 out.groupsRef (St.read q.1 out.groupsRef ++ [name])
    (h2, .ok ⟨q.2, out.groupsRef⟩)

/-- Python Regex.make_lookahead at heap level. -/
def St.make_lookahead (h : Heap) (v : Ref) : Heap × Except Err Ref :=
  let p := St.copyReg h v
  let out := p.2
  let q := St.alloc p.1 (['(', '?', '='] :: St.read h v.dataRef ++ [[')']])
  (q.1, .ok ⟨q.2, out.groupsRef⟩)

/-- Python Regex.make_lookbehind at heap level. -/
def St.make_lookbehind (h : Heap) (v : Ref) : Heap × Except Err Ref :=
  let p := St.copyReg h v
  let out := p.2
  let q := St.alloc p.1 (['(', '?', '<', '='] :: St.read h v.dataRef ++ [[')']])
  (q.1, .ok ⟨q.2, out.groupsRef⟩)

/-- Python Regex.make_negative_lookahead at heap level. -/
def St.make_negative_lookahead (h : Heap) (v : Ref) : Heap × Except Err Ref :=
  let p := St.copyReg h v
  let out := p.2
  let q := St.alloc p.1 (['(', '?', '!'] :: St.read h v.dataRef ++ [[')']])
  (q.1, .ok ⟨q.2, out.groupsRef⟩)

/-- Python Regex.make_negative_lookbehind at heap level. -/
def St.make_negative_lookbehind (h : Heap) (v : Ref) : Heap × Except Err Ref :=
  let p := St.copyReg h v
  let out := p.2
  let q := St.alloc p.1 (['(', '?', '<', '!'] :: St.read h v.dataRef ++ [[')']])
  (q.1, .ok ⟨q.2, out.groupsRef⟩)

/-- Python Regex.zero_or_more_repetitions at heap level: guard, delegate to
make_non_capture_group, then append the suffix in place. -/
def St.zero_or_more_repetitions (h : Heap) (v : Ref) : Heap × Except Err Ref :=
  match Regex._is_repeating (St.render_of h v) with
  | .error e => (h, .error e)
  | .ok true => (h, .error .alreadyRepeating)
  | .ok false =>
    let p := St.make_non_capture_group h v
    match p.2 with
    | .error e => (p.1, .error e)
    | .ok out => (St.write p.1 out.dataRef (St.read p.1 out.dataRef ++ [['*']]), .ok out)

/-- Python Regex.one_or_more_repetitions at heap level. -/
def St.one_or_more_repetitions (h : Heap) (v : Ref) : Heap × Except Err Ref :=
  match Regex._is_repeating (St.render_of h v) with
  | .error e => (h, .error e)
  | .ok true => (h, .error .alreadyRepeating)
  | .ok false =>
    let p := St.make_non_capture_group h v
    match p.2 with
    | .error e => (p.1, .error e)
    | .ok out => (St.write p.1 out.dataRef (St.read p.1 out.dataRef ++ [['+']]), .ok out)

/-- Python Regex.optional at heap level. -/
def St.optional (h : Heap) (v : Ref) : Heap × Except Err Ref :=
  match Regex._is_repeating (St.render_of h v) with
  | .error e => (h, .error e)
  | .ok true => (h, .error .alreadyRepeating)
  | .ok false =>
    let p := St.make_non_capture_group h v
    match p.2 with
    | .error e => (p.1, .error e)
    | .ok out => (St.write p.1 out.dataRef (St.read p.1 out.dataRef ++ [['?']]), .ok out)

/-- Python Regex.exactly_m_repetitions at heap level. -/
def St.exactly_m_repetitions (h : Heap) (v : Ref) (m : Int) : Heap × Except Err Ref :=
  match Regex._is_repeating (St.render_of h v) with
  | .error e => (h, .error e)
  | .ok true => (h, .error .alreadyRepeating)
  | .ok false =>
    let p := St.make_non_capture_group h v
    match p.2 with
    | .error e => (p.1, .error e)
    | .ok out =>
      (St.write p.1 out.dataRef
        (St.read p.1 out.dataRef ++ ['\x7b' :: (toString m).data ++ ['\x7d']]), .ok out)

/-- Python Regex.m_to_n_repetitions at heap level. -/
def St.m_to_n_repetitions (h : Heap) (v : Ref) (m n : Int) : Heap × Except Err Ref :=
  match Regex._is_repeating (St.render_of h v) with
  | .error e => (h, .error e)
  | .ok true => (h, .error .alreadyRepeating)
  | .ok false =>
    let p := St.make_non_capture_group h v
    match p.2 with
    | .error e => (p.1, .error e)
    | .ok out =>
      if m = 0 ∧ n = 1 then
        (St.write p.1 out.dataRef (St.read p.1 out.dataRef ++ [['?']]), .ok out)
      else
        (St.write p.1 out.dataRef
          (St.read p.1 out.dataRef ++
            ['\x7b' :: (toString m).data ++ [','] ++ (toString n).data ++ ['\x7d']]), .ok out)

/-- Python Regex.m_or_more_repetitions at heap level. -/
def St.m_or_more_repetitions (h : Heap) (v : Ref) (m : Int) : Heap × Except Err Ref :=
  match Regex._is_repeating (St.render_of h v) with
  | .error e => (h, .error e)
  | .ok true => (h, .error .alreadyRepeating)
  | .ok false =>
    if m = 0 then St.zero_or_more_repetitions h v
    else if m = 1 then St.one_or_more_repetitions h v
    else if m < 0 then (h, .error .valueError)
    else
      let p := St.make_non_capture_group h v
      match p.2 with
      | .error e => (p.1, .error e)
      | .ok out =>
        (St.write p.1 out.dataRef
          (St.read p.1 out.dataRef ++ ['\x7b' :: (toString m).data ++ [',', '\x7d']]), .ok out)

/-- Python Regex.any_char at heap level. -/
def St.any_char (h : Heap) (v : Ref) (char : List (List Char)) : Heap × Except Err Ref :=
  let p := St.copyReg h v
  let out := p.2
  if char.all (fun t => Regex._is_character t) then
    if 1 < char.length then
      (St.write p.1 out.dataRef ((St.read p.1 out.dataRef ++ [['[']] ++ char) ++ [[']']]), .ok out)
    else
      let q := St.alloc p.1 char
      (q.1, .ok ⟨q.2, out.groupsRef⟩)
  else (p.1, .error .notACharacter)

/-- Python Regex.exclude_char at heap level. -/
def St.exclude_char (h : Heap) (v : Ref) (char : List (List Char)) : Heap × Except Err Ref :=
  let p := St.copyReg h v
  let out := p.2
  if char.all (fun t => Regex._is_character t) then
    (St.write p.1 out.dataRef ((St.read p.1 out.dataRef ++ [['[', '^']] ++ char) ++ [[']']]), .ok out)
  else (p.1, .error .notACharacter)

/-- Python Regex.__add__ on two Regex operands at heap level: builds a
fresh object from fresh concatenated lists. -/
def St.add (h : Heap) (a b : Ref) : Heap × Except Err Ref :=
  if (St.read h a.groupsRef).any (fun n => (St.read h b.groupsRef).contains n) then
    (h, .error .setIntersection)
  else
    let p := St.alloc h (St.read h a.dataRef ++ St.read h b.dataRef)
    let q := St.alloc p.1 (St.read h a.groupsRef ++ St.read h b.groupsRef)
    (q.1, .ok ⟨p.2, q.2⟩)

/-- Python Regex.__add__ with a string operand (the literal method): the
string is first normalized into a fresh one-fragment value. -/
def St.add_str (h : Heap) (a : Ref) (s : List Char) : Heap × Except Err Ref :=
  let o := St.alloc h (if s = [] then [] else [s])
  let p := St.alloc o.1 (St.read h a.dataRef ++ St.read o.1 o.2)
  let q := St.alloc p.1 (St.read h a.groupsRef ++ [])
  (q.1, .ok ⟨p.2, q.2⟩)

/-- Python Regex.__radd__ on two Regex operands at heap level. -/
def St.radd (h : Heap) (a b : Ref) : Heap × Except Err Ref :=
  if (St.read h a.groupsRef).any (fun n => (St.read h b.groupsRef).contains n) then
    (h, .error .setIntersection)
  else
    let p := St.alloc h (St.read h b.dataRef ++ St.read h a.dataRef)
    let q := St.alloc p.1 (St.read h b.groupsRef ++ St.read h a.groupsRef)
    (q.1, .ok ⟨p.2, q.2⟩)

/-- Python Regex.__or__ on two Regex operands at heap level. -/
def St.or_op (h : Heap) (a b : Ref) : Heap × Except Err Ref :=
  if St.read h b.groupsRef ≠ [] then (h, .error .nonEmpty)
  else if St.read h a.groupsRef ≠ [] then (h, .error .nonEmpty)
  else
    let sa := St.render_of h a
    let sb := St.render_of h b
    let d :=
      if Regex._is_non_capture_group sa then
        if Regex._is_non_capture_group sb then
          [['(', '?', ':'], (sa.drop 3).dropLast, ['|'], (sb.drop 3).dropLast, [')']]
        else ([['(', '?', ':'], (sa.drop 3).dropLast, ['|']] ++ St.read h b.dataRef) ++ [[')']]
      else if Regex._is_non_capture_group sb then
        [['(', '?', ':'], sa, ['|'], (sb.drop 3).dropLast, [')']]
      else ['(', '?', ':'] :: St.read h a.dataRef ++ ['|'] :: St.read h b.dataRef ++ [[')']]
    let p := St.alloc h d
    let q := St.alloc p.1 []
    (q.1, .ok ⟨p.2, q.2⟩)

/-- Python Regex.__ror__ on two Regex operands at heap level. -/
def St.ror (h : Heap) (a b : Ref) : Heap × Except Err Ref :=
  if St.read h b.groupsRef ≠ [] then (h, .error .nonEmpty)
  else if St.read h a.groupsRef ≠ [] then (h, .error .nonEmpty)
  else
    let sa := St.render_of h a
    let sb := St.render_of h b
    let d :=
      if Regex._is_non_capture_group sb then
        if Regex._is_non_capture_group sa then
          [['(', '?', ':'], (sb.drop 3).dropLast, ['|'], (sa.drop 3).dropLast, [')']]
        else ([['(', '?', ':'], (sb.drop 3).dropLast, ['|']] ++ St.read h a.dataRef) ++ [[')']]
      else if Regex._is_non_capture_group sa then
        [['(', '?', ':'], sb, ['|'], (sa.drop 3).dropLast, [')']]
      else ['(', '?', ':'] :: St.read h b.dataRef ++ ['|'] :: St.read h a.dataRef ++ [[')']]
    let p := St.alloc h d
    let q := St.alloc p.1 []
    (q.1, .ok ⟨p.2, q.2⟩)

/-!
Theorems.  Claims C1..C10 of the specification are settled below; helper
lemmas come first.
-/

/-- Claim C1 (evaluation at the failing input).  The shape classifier has
no guard on the character after the left-paren question-mark less-than
prefix: the rendering of a lookbehind of the literal hello, which is the
nine characters of a lookbehind assertion around hello, IS classified as a
named capture group, and consequently make_non_capture_group on that
lookbehind value raises AlreadyCaptured.  The claim says the classifier
must not classify lookbehind renderings as named capture groups and that
grouping them must not fail. -/
theorem lookbehind_misclassified_as_named :
    Regex._is_named_capture_group
      (Regex.render (Regex.make_lookbehind (Regex.init (some "hello")))) = true ∧
    Regex.make_non_capture_group (Regex.make_lookbehind (Regex.init (some "hello"))) =
      .error .alreadyCaptured := by
  constructor
  · decide
  · decide

/-- Claim C2 (counterexample).  exactly_m_repetitions with m equal 3 on the
two-character escape for a digit does not render as a non-capture-wrapped
repetition: the actual rendering differs from the spec scenario string. -/
theorem exactly_digit_not_noncapture_wrapped :
    Regex.exactly_m_repetitions (Regex.init (some "\\d")) 3 =
      .ok ⟨[['\\', 'd'], ['\x7b', '3', '\x7d']], []⟩ ∧
    Regex.render ⟨[['\\', 'd'], ['\x7b', '3', '\x7d']], []⟩ ≠ "(?:\\d)\x7b3\x7d".data := by
  constructor
  · decide
  · decide

/-- Claim C2 (amended).  exactly_m_repetitions with m equal 3 on the digit
escape returns a value rendering as the digit escape followed directly by
the braced repetition count: the operand is a single escaped character, so
the non-capture-group step leaves it unwrapped. -/
theorem exactly_digit_renders_plain :
    Regex.exactly_m_repetitions (Regex.init (some "\\d")) 3 =
      .ok ⟨[['\\', 'd'], ['\x7b', '3', '\x7d']], []⟩ ∧
    Regex.render ⟨[['\\', 'd'], ['\x7b', '3', '\x7d']], []⟩ = "\\d\x7b3\x7d".data := by
  constructor
  · decide
  · decide

/-- Claim C3 (evaluation at the failing input).  Wrapping the literal abc
as a capture group and then renaming it via make_named_capture_group with
name n succeeds and produces the named-group rendering, but the returned
value's capture-group name list is still empty: the rewrap branch never
registers the name.  The claim says the name set contains n on success. -/
theorem named_rewrap_name_not_registered :
    Regex.make_capture_group (Regex.init (some "abc")) =
      .ok ⟨[['('], ['a', 'b', 'c'], [')']], []⟩ ∧
    Regex.make_named_capture_group ⟨[['('], ['a', 'b', 'c'], [')']], []⟩ "n" =
      .ok ⟨[['(', '?', '<'], ['n'], ['>'], ['a', 'b', 'c'], [')']], []⟩ ∧
    Regex.render ⟨[['(', '?', '<'], ['n'], ['>'], ['a', 'b', 'c'], [')']], []⟩ =
      "(?<n>abc)".data ∧
    (⟨[['(', '?', '<'], ['n'], ['>'], ['a', 'b', 'c'], [')']], []⟩ : Regex).capture_groups = [] := by
  refine ⟨by decide, by decide, by decide, rfl⟩

/-- Claim C9.  On the empty value (built from None or from the empty
string, both giving an empty fragment list), every quantifier operation
fails with the IndexError arising from indexing the last character of the
empty rendered string, for all integer arguments, instead of returning a
value or raising one of the documented builder errors. -/
theorem quantifiers_on_empty_raise_index_error :
    Regex.init none = Regex.init (some "") ∧
    ∀ m n : Int,
      Regex.zero_or_more_repetitions (Regex.init none) = .error .indexError ∧
      Regex.one_or_more_repetitions (Regex.init none) = .error .indexError ∧
      Regex.optional (Regex.init none) = .error .indexError ∧
      Regex.exactly_m_repetitions (Regex.init none) m = .error .indexError ∧
      Regex.m_to_n_repetitions (Regex.init none) m n = .error .indexError ∧
      Regex.m_or_more_repetitions (Regex.init none) m = .error .indexError := by
  refine ⟨by decide, fun m n => ⟨rfl, rfl, rfl, ?_, ?_, ?_⟩⟩
  · simp [Regex.exactly_m_repetitions, Regex._is_repeating, Regex.render, Regex.init]
  · simp [Regex.m_to_n_repetitions, Regex._is_repeating, Regex.render, Regex.init]
  · simp [Regex.m_or_more_repetitions, Regex._is_repeating, Regex.render, Regex.init]

/-- Claim C10.  any_char validates every argument as a character and then:
with exactly one argument it replaces the whole fragment list by that
single argument (prior fragments are discarded); with zero arguments it
replaces the fragment list by the empty list; with two or more arguments
it appends the bracketed character class to the existing fragments. -/
theorem any_char_arity_behaviour :
    (∀ (v : Regex) (c : List Char), Regex._is_character c = true →
      Regex.any_char v [c] = .ok { v with data := [c] }) ∧
    (∀ v : Regex, Regex.any_char v [] = .ok { v with data := [] }) ∧
    (∀ (v : Regex) (cs : List (List Char)), 2 ≤ cs.length →
      (∀ t ∈ cs, Regex._is_character t = true) →
      Regex.any_char v cs = .ok { v with data := (v.data ++ [['[']] ++ cs) ++ [[']']] }) := by
  refine ⟨?_, ?_, ?_⟩
  · intro v c hc
    simp [Regex.any_char, hc]
  · intro v
    simp [Regex.any_char]
  · intro v cs hlen hall
    have h1 : cs.all (fun t => Regex._is_character t) = true := by
      simp only [List.all_eq_true]
      exact hall
    have h2 : 1 < cs.length := by omega
    simp [Regex.any_char, h1, h2]

/-- Witness for claim C10 at concrete inputs. -/
theorem any_char_arity_behaviour_witness :
    Regex.any_char (Regex.init (some "hello")) [['a']] =
      .ok { Regex.init (some "hello") with data := [['a']] } ∧
    Regex.any_char (Regex.init (some "hello")) [] =
      .ok { Regex.init (some "hello") with data := [] } ∧
    Regex.any_char (Regex.init (some "hello")) [['a'], ['b']] =
      .ok { Regex.init (some "hello") with
            data := ((Regex.init (some "hello")).data ++ [['[']] ++ [['a'], ['b']]) ++ [[']']] } := by
  exact ⟨any_char_arity_behaviour.1 _ ['a'] (by decide),
         any_char_arity_behaviour.2.1 _,
         any_char_arity_behaviour.2.2 _ [['a'], ['b']] (by decide) (by decide)⟩

/-- Claim C5.  Concatenation of two values: when the capture-group name
sets are disjoint the result renders as the concatenation of the two
renderings and carries the union of the two name sets; when the name sets
intersect the operation fails with the set-intersection error. -/
theorem add_concatenation_spec (a b : Regex) :
    ((∀ n, n ∈ a.capture_groups → n ∉ b.capture_groups) →
      ∃ c, Regex.add a b = .ok c ∧
        Regex.render c = Regex.render a ++ Regex.render b ∧
        ∀ n, n ∈ c.capture_groups ↔ n ∈ a.capture_groups ∨ n ∈ b.capture_groups) ∧
    ((∃ n, n ∈ a.capture_groups ∧ n ∈ b.capture_groups) →
      Regex.add a b = .error .setIntersection) := by
  constructor
  · intro hd
    have hc : (a.capture_groups.any fun n => b.capture_groups.contains n) = false := by
      rw [Bool.eq_false_iff]
      intro hc
      simp only [List.any_eq_true] at hc
      obtain ⟨n, hn, hm⟩ := hc
      exact hd n hn (by simpa using hm)
    refine ⟨⟨a.data ++ b.data, a.capture_groups ++ b.capture_groups⟩, ?_, ?_, ?_⟩
    · simp only [Regex.add, hc, Bool.false_eq_true, if_false]
    · simp [Regex.render, List.flatten_append]
    · intro n
      simp
  · rintro ⟨n, hna, hnb⟩
    have hc : (a.capture_groups.any fun n => b.capture_groups.contains n) = true := by
      simp only [List.any_eq_true]
      exact ⟨n, hna, by simpa⟩
    simp only [Regex.add, hc, if_true]

/-- Witness for claim C5: a disjoint pair concatenates, an overlapping
pair fails. -/
theorem add_concatenation_spec_witness :
    (∃ c, Regex.add ⟨[['a']], ["x"]⟩ ⟨[['b']], ["y"]⟩ = .ok c ∧
      Regex.render c = Regex.render ⟨[['a']], ["x"]⟩ ++ Regex.render ⟨[['b']], ["y"]⟩ ∧
      ∀ n, n ∈ c.capture_groups ↔ n ∈ (["x"] : List String) ∨ n ∈ (["y"] : List String)) ∧
    Regex.add ⟨[['a']], ["x"]⟩ ⟨[['b']], ["x"]⟩ = .error .setIntersection := by
  constructor
  · exact (add_concatenation_spec ⟨[['a']], ["x"]⟩ ⟨[['b']], ["y"]⟩).1 (by decide)
  · exact (add_concatenation_spec ⟨[['a']], ["x"]⟩ ⟨[['b']], ["x"]⟩).2 ⟨"x", by decide, by decide⟩

/-- Claim C6.  Alternation of two values fails with the non-empty error
whenever either operand carries a capture-group name; on success the
result carries no names and renders as a non-capture group around the two
operands separated by the alternation bar, where an operand that is itself
shaped as a non-capture group contributes its inner content (its outer
delimiters are spliced away). -/
theorem or_alternation_spec (a b : Regex) :
    ((a.capture_groups ≠ [] ∨ b.capture_groups ≠ []) → Regex.or_op a b = .error .nonEmpty) ∧
    (a.capture_groups = [] → b.capture_groups = [] →
      ∃ c, Regex.or_op a b = .ok c ∧ c.capture_groups = [] ∧
        Regex.render c =
          ['(', '?', ':'] ++
            (if Regex._is_non_capture_group (Regex.render a) = true
              then ((Regex.render a).drop 3).dropLast else Regex.render a) ++
            ['|'] ++
            (if Regex._is_non_capture_group (Regex.render b) = true
              then ((Regex.render b).drop 3).dropLast else Regex.render b) ++
            [')']) := by
  constructor
  · intro h
    by_cases hb : b.capture_groups = []
    · rcases h with h | h
      · simp [Regex.or_op, hb, h]
      · exact absurd hb h
    · simp [Regex.or_op, hb]
  · intro ha hb
    by_cases hna : Regex._is_non_capture_group a.data.flatten = true <;>
      by_cases hnb : Regex._is_non_capture_group b.data.flatten = true
    · refine ⟨⟨[['(', '?', ':'], ((Regex.render a).drop 3).dropLast, ['|'],
          ((Regex.render b).drop 3).dropLast, [')']], []⟩,
        by simp [Regex.or_op, Regex.render, ha, hb, hna, hnb], rfl, ?_⟩
      simp [Regex.render, hna, hnb, List.flatten_append]
    · refine ⟨⟨([['(', '?', ':'], ((Regex.render a).drop 3).dropLast, ['|']] ++ b.data) ++ [[')']],
          []⟩,
        by simp [Regex.or_op, Regex.render, ha, hb, hna, hnb], rfl, ?_⟩
      simp [Regex.render, hna, hnb, List.flatten_append]
    · refine ⟨⟨[['(', '?', ':'], Regex.render a, ['|'], ((Regex.render b).drop 3).dropLast, [')']],
          []⟩,
        by simp [Regex.or_op, Regex.render, ha, hb, hna, hnb], rfl, ?_⟩
      simp [Regex.render, hna, hnb, List.flatten_append]
    · refine ⟨⟨['(', '?', ':'] :: a.data ++ ['|'] :: b.data ++ [[')']], []⟩,
        by simp [Regex.or_op, Regex.render, ha, hb, hna, hnb], rfl, ?_⟩
      simp [Regex.render, hna, hnb, List.flatten_append]

/-- Witness for claim C6: an operand carrying a name makes alternation
fail, and two name-free operands succeed with the spliced rendering. -/
theorem or_alternation_spec_witness :
    Regex.or_op ⟨[['a']], ["x"]⟩ ⟨[['b']], []⟩ = .error .nonEmpty ∧
    (∃ c, Regex.or_op (Regex.init (some "ab")) (Regex.init (some "(?:cd)")) = .ok c ∧
      c.capture_groups = [] ∧
      Regex.render c =
        ['(', '?', ':'] ++
          (if Regex._is_non_capture_group (Regex.render (Regex.init (some "ab"))) = true
            then ((Regex.render (Regex.init (some "ab"))).drop 3).dropLast
            else Regex.render (Regex.init (some "ab"))) ++
          ['|'] ++
          (if Regex._is_non_capture_group (Regex.render (Regex.init (some "(?:cd)"))) = true
            then ((Regex.render (Regex.init (some "(?:cd)"))).drop 3).dropLast
            else Regex.render (Regex.init (some "(?:cd)"))) ++
          [')']) := by
  constructor
  · exact (or_alternation_spec ⟨[['a']], ["x"]⟩ ⟨[['b']], []⟩).1 (Or.inl (by decide))
  · exact (or_alternation_spec (Regex.init (some "ab")) (Regex.init (some "(?:cd)"))).2 rfl rfl

/-- The capture-group branch of make_capture_group returns its input
unchanged, so capture-group shaped values are fixed points. -/
theorem mcg_fixpoint (w : Regex) (hw : Regex._is_capture_group (Regex.render w) = true) :
    Regex.make_capture_group w = .ok w := by
  have hnamed : Regex._is_named_capture_group (Regex.render w) = false := by
    rcases h : Regex._is_named_capture_group (Regex.render w)
    · rfl
    · rw [Regex._is_capture_group, h] at hw
      simp at hw
  simp [Regex.make_capture_group, hnamed, hw]

/-- Claim C7 (amended).  When a value is already shaped as a capture group,
make_capture_group returns it unchanged; consequently re-applying
make_capture_group renders identically whenever the first application's
result is itself classified as a capture group. -/
theorem make_capture_group_idempotent (v : Regex) :
    (Regex._is_capture_group (Regex.render v) = true → Regex.make_capture_group v = .ok v) ∧
    (∀ w, Regex.make_capture_group v = .ok w →
      Regex._is_capture_group (Regex.render w) = true →
      Regex.make_capture_group w = .ok w) := by
  exact ⟨mcg_fixpoint v, fun w _ hw => mcg_fixpoint w hw⟩

/-- Witness for claim C7 at concrete inputs. -/
theorem make_capture_group_idempotent_witness :
    Regex.make_capture_group (Regex.init (some "(ab)")) = .ok (Regex.init (some "(ab)")) ∧
    Regex.make_capture_group ⟨[['('], ['a', 'b'], [')']], []⟩ =
      .ok ⟨[['('], ['a', 'b'], [')']], []⟩ := by
  constructor
  · exact (make_capture_group_idempotent (Regex.init (some "(ab)"))).1 (by decide)
  · exact (make_capture_group_idempotent (Regex.init (some "ab"))).2
      ⟨[['('], ['a', 'b'], [')']], []⟩ (by decide) (by decide)

/-- Claim C7 (counterexample).  On the literal whose five characters are a
question mark, a colon, the letter a, the letter b (preceded by nothing
else), make_capture_group succeeds, but applying it a second time rewrites
the result (now shaped as a non-capture group) instead of returning it, so
the two renderings differ: idempotence fails as universally stated. -/
theorem make_capture_group_not_idempotent :
    Regex.make_capture_group (Regex.init (some "?:ab")) =
      .ok ⟨[['('], ['?', ':', 'a', 'b'], [')']], []⟩ ∧
    Regex.make_capture_group ⟨[['('], ['?', ':', 'a', 'b'], [')']], []⟩ =
      .ok ⟨[['('], ['a', 'b'], [')']], []⟩ ∧
    Regex.render ⟨[['('], ['a', 'b'], [')']], []⟩ ≠
      Regex.render ⟨[['('], ['?', ':', 'a', 'b'], [')']], []⟩ := by
  refine ⟨by decide, by decide, by decide⟩

/-- make_non_capture_group succeeds on every value that is not shaped as a
named capture group. -/
theorem mncg_succeeds (v : Regex)
    (h : Regex._is_named_capture_group (Regex.render v) = false) :
    ∃ out, Regex.make_non_capture_group v = .ok out := by
  by_cases h1 : (Regex._is_character (Regex.render v) || Regex._is_character_group (Regex.render v)
      || Regex._is_non_capture_group (Regex.render v)) = true
  · exact ⟨v, by simp [Regex.make_non_capture_group, h1]⟩
  · by_cases h2 : Regex._is_capture_group (Regex.render v) = true
    · exact ⟨{ v with data := [['(', '?', ':'], ((Regex.render v).drop 1).dropLast, [')']] },
        by simp [Regex.make_non_capture_group, h1, h, h2]⟩
    · exact ⟨{ v with data := ['(', '?', ':'] :: v.data ++ [[')']] },
        by simp [Regex.make_non_capture_group, h1, h, h2]⟩

/-- Claim C4 (amended).  For every value whose rendering is nonempty and
not shaped as a named capture group, the composite zeroOrMore after
oneOrMore fails with AlreadyRepeating (either the inner guard fires, or
the inner result ends in the plus suffix and the outer guard fires).
Moreover every quantifier operation fails with AlreadyRepeating whenever
the operand's rendered text ends in a question mark, an asterisk, a plus,
or a closing brace (hence in particular after any braced repetition
token), for all integer arguments. -/
theorem already_repeating_guard (v : Regex) :
    ((Regex.render v ≠ [] ∧ Regex._is_named_capture_group (Regex.render v) = false) →
      Regex.zero_of_one v = .error .alreadyRepeating) ∧
    (((Regex.render v).getLast? = some '?' ∨ (Regex.render v).getLast? = some '*' ∨
      (Regex.render v).getLast? = some '+' ∨ (Regex.render v).getLast? = some '\x7d') →
      Regex.zero_or_more_repetitions v = .error .alreadyRepeating ∧
      Regex.one_or_more_repetitions v = .error .alreadyRepeating ∧
      Regex.optional v = .error .alreadyRepeating ∧
      (∀ m : Int, Regex.exactly_m_repetitions v m = .error .alreadyRepeating) ∧
      (∀ m n : Int, Regex.m_to_n_repetitions v m n = .error .alreadyRepeating) ∧
      (∀ m : Int, Regex.m_or_more_repetitions v m = .error .alreadyRepeating)) := by
  constructor
  · rintro ⟨hne, hnm⟩
    rcases hl : (Regex.render v).getLast? with _ | c
    · exact absurd (by simpa using hl) hne
    · by_cases hc : (c == '?' || c == '*' || c == '+' || c == '\x7d') = true
      · have h1 : Regex.one_or_more_repetitions v = .error .alreadyRepeating := by
          simp [Regex.one_or_more_repetitions, Regex._is_repeating, hl, hc]
        simp [Regex.zero_of_one, h1]
      · obtain ⟨out, hout⟩ := mncg_succeeds v hnm
        have h1 : Regex.one_or_more_repetitions v = .ok { out with data := out.data ++ [['+']] } := by
          simp [Regex.one_or_more_repetitions, Regex._is_repeating, hl, hc, hout]
        have h2 : Regex._is_repeating
            (Regex.render { out with data := out.data ++ [['+']] }) = .ok true := by
          have hx : Regex.render { out with data := out.data ++ [['+']] } =
              Regex.render out ++ ['+'] := by
            simp [Regex.render, List.flatten_append]
          rw [hx]
          simp [Regex._is_repeating]
        simp [Regex.zero_of_one, h1, Regex.zero_or_more_repetitions, h2]
  · intro hl
    have hrep : Regex._is_repeating (Regex.render v) = .ok true := by
      rcases hl with h | h | h | h <;> simp [Regex._is_repeating, h]
    refine ⟨?_, ?_, ?_, fun m => ?_, fun m n => ?_, fun m => ?_⟩ <;>
      simp [Regex.zero_or_more_repetitions, Regex.one_or_more_repetitions, Regex.optional,
        Regex.exactly_m_repetitions, Regex.m_to_n_repetitions, Regex.m_or_more_repetitions, hrep]

/-- Witness for claim C4 at concrete inputs. -/
theorem already_repeating_guard_witness :
    Regex.zero_of_one (Regex.init (some "ab")) = .error .alreadyRepeating ∧
    Regex.zero_or_more_repetitions (Regex.init (some "a*")) = .error .alreadyRepeating ∧
    Regex.one_or_more_repetitions (Regex.init (some "a*")) = .error .alreadyRepeating ∧
    Regex.optional (Regex.init (some "a*")) = .error .alreadyRepeating ∧
    Regex.exactly_m_repetitions (Regex.init (some "a*")) 4 = .error .alreadyRepeating ∧
    Regex.m_to_n_repetitions (Regex.init (some "a*")) 2 7 = .error .alreadyRepeating ∧
    Regex.m_or_more_repetitions (Regex.init (some "a*")) 5 = .error .alreadyRepeating := by
  have h := (already_repeating_guard (Regex.init (some "a*"))).2 (Or.inr (Or.inl (by decide)))
  exact ⟨(already_repeating_guard (Regex.init (some "ab"))).1 ⟨by decide, by decide⟩,
    h.1, h.2.1, h.2.2.1, h.2.2.2.1 4, h.2.2.2.2.1 2 7, h.2.2.2.2.2 5⟩

/-- Claim C4 (counterexample).  On a value shaped as a named capture
group, oneOrMore itself fails with AlreadyCaptured (from the non-capture
grouping step), so the composite does not fail with AlreadyRepeating for
that value, contradicting the universal claim. -/
theorem zero_of_one_not_always_already_repeating :
    Regex.zero_of_one (Regex.init (some "(?<a>b)")) = .error .alreadyCaptured ∧
    Err.alreadyCaptured ≠ Err.alreadyRepeating := by
  exact ⟨by decide, by decide⟩

/-- Reading below the frontier is unaffected by an allocation. -/
theorem St.read_alloc_of_lt (h : Heap) (c : List (List Char)) (r : Nat) (hlt : r < h.next) :
    St.read (St.alloc h c).1 r = St.read h r := by
  unfold St.read St.alloc
  exact if_neg (by omega)

/-- Reading another address is unaffected by a write. -/
theorem St.read_write_of_ne (h : Heap) (r rp : Nat) (c : List (List Char)) (hne : r ≠ rp) :
    St.read (St.write h rp c) r = St.read h r := by
  unfold St.read St.write
  exact if_neg hne

theorem St.evolves_refl (h : Heap) : St.evolves h h :=
  ⟨Nat.le_refl _, fun _ _ => rfl⟩

theorem St.evolves_alloc (h h2 : Heap) (c : List (List Char)) (he : St.evolves h h2) :
    St.evolves h (St.alloc h2 c).1 := by
  obtain ⟨hn, hm⟩ := he
  refine ⟨?_, fun r hr => ?_⟩
  · show h.next ≤ h2.next + 1
    omega
  · rw [St.read_alloc_of_lt h2 c r (by omega)]
    exact hm r hr

theorem St.evolves_write (h h2 : Heap) (r : Nat) (c : List (List Char))
    (he : St.evolves h h2) (hr : h.next ≤ r) : St.evolves h (St.write h2 r c) := by
  obtain ⟨hn, hm⟩ := he
  refine ⟨hn, fun s hs => ?_⟩
  rw [St.read_write_of_ne h2 s r c (by omega)]
  exact hm s hs

theorem St.copy_evolves (h : Heap) (v : Ref) : St.evolves h (St.copyReg h v).1 :=
  St.evolves_alloc _ _ _ (St.evolves_alloc _ _ _ (St.evolves_refl h))

theorem St.preserved_of_evolves (h h2 : Heap) (v : Ref)
    (he : St.evolves h h2) (hv : St.valid h v) : St.preserved h h2 v :=
  ⟨he.2 v.dataRef hv.1, he.2 v.groupsRef hv.2⟩

/-- make_non_capture_group only touches addresses at or above the frontier
and returns, on success, an object whose two cells sit at or above it. -/
theorem St.mncg_evolves (h : Heap) (v : Ref) :
    St.evolves h (St.make_non_capture_group h v).1 ∧
    ∀ out, (St.make_non_capture_group h v).2 = .ok out →
      h.next ≤ out.dataRef ∧ h.next ≤ out.groupsRef := by
  simp only [St.make_non_capture_group]
  split
  · refine ⟨St.evolves_write _ _ _ _ (St.copy_evolves h v) (Nat.le_refl _), ?_⟩
    intro out hout
    cases hout
    exact ⟨Nat.le_refl _, Nat.le_succ _⟩
  · split
    · exact ⟨St.copy_evolves h v, fun out hout => Except.noConfusion hout⟩
    · split
      · refine ⟨St.evolves_alloc _ _ _ (St.copy_evolves h v), ?_⟩
        intro out hout
        cases hout
        exact ⟨Nat.le_add_right _ 2, Nat.le_succ _⟩
      · refine ⟨St.evolves_alloc _ _ _ (St.copy_evolves h v), ?_⟩
        intro out hout
        cases hout
        exact ⟨Nat.le_add_right _ 2, Nat.le_succ _⟩

theorem St.whitespace_evolves (h : Heap) (v : Ref) : St.evolves h (St.whitespace h v).1 :=
  St.evolves_write _ _ _ _ (St.copy_evolves h v) (Nat.le_refl _)

theorem St.newlines_evolves (h : Heap) (v : Ref) : St.evolves h (St.newlines h v).1 :=
  St.evolves_write _ _ _ _ (St.copy_evolves h v) (Nat.le_refl _)

theorem St.anything_evolves (h : Heap) (v : Ref) : St.evolves h (St.anything h v).1 :=
  St.evolves_alloc _ _ _ (St.evolves_alloc _ _ _ (St.evolves_refl h))

theorem St.zom_evolves (h : Heap) (v : Ref) :
    St.evolves h (St.zero_or_more_repetitions h v).1 := by
  simp only [St.zero_or_more_repetitions]
  split
  · exact St.evolves_refl h
  · exact St.evolves_refl h
  · split
    · exact (St.mncg_evolves h v).1
    · rename_i out hout
      exact St.evolves_write _ _ _ _ (St.mncg_evolves h v).1 ((St.mncg_evolves h v).2 out hout).1

theorem St.oom_evolves (h : Heap) (v : Ref) :
    St.evolves h (St.one_or_more_repetitions h v).1 := by
  simp only [St.one_or_more_repetitions]
  split
  · exact St.evolves_refl h
  · exact St.evolves_refl h
  · split
    · exact (St.mncg_evolves h v).1
    · rename_i out hout
      exact St.evolves_write _ _ _ _ (St.mncg_evolves h v).1 ((St.mncg_evolves h v).2 out hout).1

theorem St.optional_evolves (h : Heap) (v : Ref) : St.evolves h (St.optional h v).1 := by
  simp only [St.optional]
  split
  · exact St.evolves_refl h
  · exact St.evolves_refl h
  · split
    · exact (St.mncg_evolves h v).1
    · rename_i out hout
      exact St.evolves_write _ _ _ _ (St.mncg_evolves h v).1 ((St.mncg_evolves h v).2 out hout).1

theorem St.exactly_evolves (h : Heap) (v : Ref) (m : Int) :
    St.evolves h (St.exactly_m_repetitions h v m).1 := by
  simp only [St.exactly_m_repetitions]
  split
  · exact St.evolves_refl h
  · exact St.evolves_refl h
  · split
    · exact (St.mncg_evolves h v).1
    · rename_i out hout
      exact St.evolves_write _ _ _ _ (St.mncg_evolves h v).1 ((St.mncg_evolves h v).2 out hout).1

theorem St.mtn_evolves (h : Heap) (v : Ref) (m n : Int) :
    St.evolves h (St.m_to_n_repetitions h v m n).1 := by
  simp only [St.m_to_n_repetitions]
  split
  · exact St.evolves_refl h
  · exact St.evolves_refl h
  · split
    · exact (St.mncg_evolves h v).1
    · rename_i out hout
      split <;>
        exact St.evolves_write _ _ _ _ (St.mncg_evolves h v).1 ((St.mncg_evolves h v).2 out hout).1

theorem St.mom_evolves (h : Heap) (v : Ref) (m : Int) :
    St.evolves h (St.m_or_more_repetitions h v m).1 := by
  simp only [St.m_or_more_repetitions]
  split
  · exact St.evolves_refl h
  · exact St.evolves_refl h
  · split
    · exact St.zom_evolves h v
    · split
      · exact St.oom_evolves h v
      · split
        · exact St.evolves_refl h
        · split
          · exact (St.mncg_evolves h v).1
          · rename_i out hout
            exact St.evolves_write _ _ _ _ (St.mncg_evolves h v).1
              ((St.mncg_evolves h v).2 out hout).1

theorem St.any_char_evolves (h : Heap) (v : Ref) (char : List (List Char)) :
    St.evolves h (St.any_char h v char).1 := by
  simp only [St.any_char]
  split
  · split
    · exact St.evolves_write _ _ _ _ (St.copy_evolves h v) (Nat.le_refl _)
    · exact St.evolves_alloc _ _ _ (St.copy_evolves h v)
  · exact St.copy_evolves h v

theorem St.exclude_char_evolves (h : Heap) (v : Ref) (char : List (List Char)) :
    St.evolves h (St.exclude_char h v char).1 := by
  simp only [St.exclude_char]
  split
  · exact St.evolves_write _ _ _ _ (St.copy_evolves h v) (Nat.le_refl _)
  · exact St.copy_evolves h v

theorem St.mcg_evolves (h : Heap) (v : Ref) :
    St.evolves h (St.make_capture_group h v).1 := by
  simp only [St.make_capture_group]
  split
  · exact St.evolves_refl h
  · split
    · exact St.evolves_refl h
    · split
      · exact St.evolves_alloc _ _ _ (St.copy_evolves h v)
      · exact St.evolves_alloc _ _ _ (St.copy_evolves h v)

theorem St.mnamed_evolves (h : Heap) (v : Ref) (name : List Char) :
    St.evolves h (St.make_named_capture_group h v name).1 := by
  simp only [St.make_named_capture_group]
  split
  · exact St.evolves_alloc _ _ _ (St.copy_evolves h v)
  · split
    · exact St.evolves_alloc _ _ _ (St.copy_evolves h v)
    · split
      · exact St.copy_evolves h v
      · exact St.evolves_write _ _ _ _ (St.evolves_alloc _ _ _ (St.copy_evolves h v))
          (Nat.le_succ _)

theorem St.mla_evolves (h : Heap) (v : Ref) : St.evolves h (St.make_lookahead h v).1 :=
  St.evolves_alloc _ _ _ (St.copy_evolves h v)

theorem St.mlb_evolves (h : Heap) (v : Ref) : St.evolves h (St.make_lookbehind h v).1 :=
  St.evolves_alloc _ _ _ (St.copy_evolves h v)

theorem St.mnla_evolves (h : Heap) (v : Ref) : St.evolves h (St.make_negative_lookahead h v).1 :=
  St.evolves_alloc _ _ _ (St.copy_evolves h v)

theorem St.mnlb_evolves (h : Heap) (v : Ref) : St.evolves h (St.make_negative_lookbehind h v).1 :=
  St.evolves_alloc _ _ _ (St.copy_evolves h v)

theorem St.add_evolves (h : Heap) (a b : Ref) : St.evolves h (St.add h a b).1 := by
  simp only [St.add]
  split
  · exact St.evolves_refl h
  · exact St.evolves_alloc _ _ _ (St.evolves_alloc _ _ _ (St.evolves_refl h))

theorem St.add_str_evolves (h : Heap) (a : Ref) (s : List Char) :
    St.evolves h (St.add_str h a s).1 :=
  St.evolves_alloc _ _ _ (St.evolves_alloc _ _ _ (St.evolves_alloc _ _ _ (St.evolves_refl h)))

theorem St.radd_evolves (h : Heap) (a b : Ref) : St.evolves h (St.radd h a b).1 := by
  simp only [St.radd]
  split
  · exact St.evolves_refl h
  · exact St.evolves_alloc _ _ _ (St.evolves_alloc _ _ _ (St.evolves_refl h))

theorem St.or_evolves (h : Heap) (a b : Ref) : St.evolves h (St.or_op h a b).1 := by
  simp only [St.or_op]
  split
  · exact St.evolves_refl h
  · split
    · exact St.evolves_refl h
    · exact St.evolves_alloc _ _ _ (St.evolves_alloc _ _ _ (St.evolves_refl h))

theorem St.ror_evolves (h : Heap) (a b : Ref) : St.evolves h (St.ror h a b).1 := by
  simp only [St.ror]
  split
  · exact St.evolves_refl h
  · split
    · exact St.evolves_refl h
    · exact St.evolves_alloc _ _ _ (St.evolves_alloc _ _ _ (St.evolves_refl h))

/-- Claim C8.  Every public operation is non-mutating on its inputs: at
the heap level, whether the operation succeeds or fails, the fragment list
and the capture-group name list of every (valid) input value are unchanged
in the resulting heap — each method works on a copy of its receiver or on
freshly allocated lists, for all arguments. -/
theorem builder_ops_do_not_mutate_inputs :
    (∀ (h : Heap) (v : Ref), St.valid h v → St.preserved h (St.whitespace h v).1 v) ∧
    (∀ (h : Heap) (v : Ref), St.valid h v → St.preserved h (St.newlines h v).1 v) ∧
    (∀ (h : Heap) (v : Ref), St.valid h v → St.preserved h (St.anything h v).1 v) ∧
    (∀ (h : Heap) (v : Ref), St.valid h v →
      St.preserved h (St.zero_or_more_repetitions h v).1 v) ∧
    (∀ (h : Heap) (v : Ref), St.valid h v →
      St.preserved h (St.one_or_more_repetitions h v).1 v) ∧
    (∀ (h : Heap) (v : Ref), St.valid h v → St.preserved h (St.optional h v).1 v) ∧
    (∀ (h : Heap) (v : Ref) (m : Int), St.valid h v →
      St.preserved h (St.exactly_m_repetitions h v m).1 v) ∧
    (∀ (h : Heap) (v : Ref) (m n : Int), St.valid h v →
      St.preserved h (St.m_to_n_repetitions h v m n).1 v) ∧
    (∀ (h : Heap) (v : Ref) (m : Int), St.valid h v →
      St.preserved h (St.m_or_more_repetitions h v m).1 v) ∧
    (∀ (h : Heap) (v : Ref) (char : List (List Char)), St.valid h v →
      St.preserved h (St.any_char h v char).1 v) ∧
    (∀ (h : Heap) (v : Ref) (char : List (List Char)), St.valid h v →
      St.preserved h (St.exclude_char h v char).1 v) ∧
    (∀ (h : Heap) (v : Ref), St.valid h v → St.preserved h (St.make_capture_group h v).1 v) ∧
    (∀ (h : Heap) (v : Ref), St.valid h v →
      St.preserved h (St.make_non_capture_group h v).1 v) ∧
    (∀ (h : Heap) (v : Ref) (name : List Char), St.valid h v →
      St.preserved h (St.make_named_capture_group h v name).1 v) ∧
    (∀ (h : Heap) (v : Ref), St.valid h v → St.preserved h (St.make_lookahead h v).1 v) ∧
    (∀ (h : Heap) (v : Ref), St.valid h v → St.preserved h (St.make_lookbehind h v).1 v) ∧
    (∀ (h : Heap) (v : Ref), St.valid h v →
      St.preserved h (St.make_negative_lookahead h v).1 v) ∧
    (∀ (h : Heap) (v : Ref), St.valid h v →
      St.preserved h (St.make_negative_lookbehind h v).1 v) ∧
    (∀ (h : Heap) (a b : Ref), St.valid h a → St.valid h b →
      St.preserved h (St.add h a b).1 a ∧ St.preserved h (St.add h a b).1 b) ∧
    (∀ (h : Heap) (a : Ref) (s : List Char), St.valid h a →
      St.preserved h (St.add_str h a s).1 a) ∧
    (∀ (h : Heap) (a b : Ref), St.valid h a → St.valid h b →
      St.preserved h (St.radd h a b).1 a ∧ St.preserved h (St.radd h a b).1 b) ∧
    (∀ (h : Heap) (a b : Ref), St.valid h a → St.valid h b →
      St.preserved h (St.or_op h a b).1 a ∧ St.preserved h (St.or_op h a b).1 b) ∧
    (∀ (h : Heap) (a b : Ref), St.valid h a → St.valid h b →
      St.preserved h (St.ror h a b).1 a ∧ St.preserved h (St.ror h a b).1 b) := by
  refine ⟨fun h v hv => St.preserved_of_evolves _ _ _ (St.whitespace_evolves h v) hv,
    fun h v hv => St.preserved_of_evolves _ _ _ (St.newlines_evolves h v) hv,
    fun h v hv => St.preserved_of_evolves _ _ _ (St.anything_evolves h v) hv,
    fun h v hv => St.preserved_of_evolves _ _ _ (St.zom_evolves h v) hv,
    fun h v hv => St.preserved_of_evolves _ _ _ (St.oom_evolves h v) hv,
    fun h v hv => St.preserved_of_evolves _ _ _ (St.optional_evolves h v) hv,
    fun h v m hv => St.preserved_of_evolves _ _ _ (St.exactly_evolves h v m) hv,
    fun h v m n hv => St.preserved_of_evolves _ _ _ (St.mtn_evolves h v m n) hv,
    fun h v m hv => St.preserved_of_evolves _ _ _ (St.mom_evolves h v m) hv,
    fun h v c hv => St.preserved_of_evolves _ _ _ (St.any_char_evolves h v c) hv,
    fun h v c hv => St.preserved_of_evolves _ _ _ (St.exclude_char_evolves h v c) hv,
    fun h v hv => St.preserved_of_evolves _ _ _ (St.mcg_evolves h v) hv,
    fun h v hv => St.preserved_of_evolves _ _ _ (St.mncg_evolves h v).1 hv,
    fun h v nm hv => St.preserved_of_evolves _ _ _ (St.mnamed_evolves h v nm) hv,
    fun h v hv => St.preserved_of_evolves _ _ _ (St.mla_evolves h v) hv,
    fun h v hv => St.preserved_of_evolves _ _ _ (St.mlb_evolves h v) hv,
    fun h v hv => St.preserved_of_evolves _ _ _ (St.mnla_evolves h v) hv,
    fun h v hv => St.preserved_of_evolves _ _ _ (St.mnlb_evolves h v) hv,
    fun h a b ha hb => ⟨St.preserved_of_evolves _ _ _ (St.add_evolves h a b) ha,
      St.preserved_of_evolves _ _ _ (St.add_evolves h a b) hb⟩,
    fun h a s ha => St.preserved_of_evolves _ _ _ (St.add_str_evolves h a s) ha,
    fun h a b ha hb => ⟨St.preserved_of_evolves _ _ _ (St.radd_evolves h a b) ha,
      St.preserved_of_evolves _ _ _ (St.radd_evolves h a b) hb⟩,
    fun h a b ha hb => ⟨St.preserved_of_evolves _ _ _ (St.or_evolves h a b) ha,
      St.preserved_of_evolves _ _ _ (St.or_evolves h a b) hb⟩,
    fun h a b ha hb => ⟨St.preserved_of_evolves _ _ _ (St.ror_evolves h a b) ha,
      St.preserved_of_evolves _ _ _ (St.ror_evolves h a b) hb⟩⟩

/-- Witness for claim C8: the frame theorem applied to a concrete
two-cell heap and a concrete value for every operation. -/
theorem builder_ops_do_not_mutate_inputs_witness :
    St.preserved ⟨fun _ => [['z']], 2⟩ (St.whitespace ⟨fun _ => [['z']], 2⟩ ⟨0, 1⟩).1 ⟨0, 1⟩ ∧
    St.preserved ⟨fun _ => [['z']], 2⟩ (St.newlines ⟨fun _ => [['z']], 2⟩ ⟨0, 1⟩).1 ⟨0, 1⟩ ∧
    St.preserved ⟨fun _ => [['z']], 2⟩ (St.anything ⟨fun _ => [['z']], 2⟩ ⟨0, 1⟩).1 ⟨0, 1⟩ ∧
    St.preserved ⟨fun _ => [['z']], 2⟩
      (St.zero_or_more_repetitions ⟨fun _ => [['z']], 2⟩ ⟨0, 1⟩).1 ⟨0, 1⟩ ∧
    St.preserved ⟨fun _ => [['z']], 2⟩
      (St.one_or_more_repetitions ⟨fun _ => [['z']], 2⟩ ⟨0, 1⟩).1 ⟨0, 1⟩ ∧
    St.preserved ⟨fun _ => [['z']], 2⟩ (St.optional ⟨fun _ => [['z']], 2⟩ ⟨0, 1⟩).1 ⟨0, 1⟩ ∧
    St.preserved ⟨fun _ => [['z']], 2⟩
      (St.exactly_m_repetitions ⟨fun _ => [['z']], 2⟩ ⟨0, 1⟩ 3).1 ⟨0, 1⟩ ∧
    St.preserved ⟨fun _ => [['z']], 2⟩
      (St.m_to_n_repetitions ⟨fun _ => [['z']], 2⟩ ⟨0, 1⟩ 2 5).1 ⟨0, 1⟩ ∧
    St.preserved ⟨fun _ => [['z']], 2⟩
      (St.m_or_more_repetitions ⟨fun _ => [['z']], 2⟩ ⟨0, 1⟩ 4).1 ⟨0, 1⟩ ∧
    St.preserved ⟨fun _ => [['z']], 2⟩
      (St.any_char ⟨fun _ => [['z']], 2⟩ ⟨0, 1⟩ [['a']]).1 ⟨0, 1⟩ ∧
    St.preserved ⟨fun _ => [['z']], 2⟩
      (St.exclude_char ⟨fun _ => [['z']], 2⟩ ⟨0, 1⟩ [['a']]).1 ⟨0, 1⟩ ∧
    St.preserved ⟨fun _ => [['z']], 2⟩
      (St.make_capture_group ⟨fun _ => [['z']], 2⟩ ⟨0, 1⟩).1 ⟨0, 1⟩ ∧
    St.preserved ⟨fun _ => [['z']], 2⟩
      (St.make_non_capture_group ⟨fun _ => [['z']], 2⟩ ⟨0, 1⟩).1 ⟨0, 1⟩ ∧
    St.preserved ⟨fun _ => [['z']], 2⟩
      (St.make_named_capture_group ⟨fun _ => [['z']], 2⟩ ⟨0, 1⟩ ['n']).1 ⟨0, 1⟩ ∧
    St.preserved ⟨fun _ => [['z']], 2⟩
      (St.make_lookahead ⟨fun _ => [['z']], 2⟩ ⟨0, 1⟩).1 ⟨0, 1⟩ ∧
    St.preserved ⟨fun _ => [['z']], 2⟩
      (St.make_lookbehind ⟨fun _ => [['z']], 2⟩ ⟨0, 1⟩).1 ⟨0, 1⟩ ∧
    St.preserved ⟨fun _ => [['z']], 2⟩
      (St.make_negative_lookahead ⟨fun _ => [['z']], 2⟩ ⟨0, 1⟩).1 ⟨0, 1⟩ ∧
    St.preserved ⟨fun _ => [['z']], 2⟩
      (St.make_negative_lookbehind ⟨fun _ => [['z']], 2⟩ ⟨0, 1⟩).1 ⟨0, 1⟩ ∧
    (St.preserved ⟨fun _ => [['z']], 2⟩ (St.add ⟨fun _ => [['z']], 2⟩ ⟨0, 1⟩ ⟨0, 1⟩).1 ⟨0, 1⟩ ∧
      St.preserved ⟨fun _ => [['z']], 2⟩ (St.add ⟨fun _ => [['z']], 2⟩ ⟨0, 1⟩ ⟨0, 1⟩).1 ⟨0, 1⟩) ∧
    St.preserved ⟨fun _ => [['z']], 2⟩
      (St.add_str ⟨fun _ => [['z']], 2⟩ ⟨0, 1⟩ ['y']).1 ⟨0, 1⟩ ∧
    (St.preserved ⟨fun _ => [['z']], 2⟩ (St.radd ⟨fun _ => [['z']], 2⟩ ⟨0, 1⟩ ⟨0, 1⟩).1 ⟨0, 1⟩ ∧
      St.preserved ⟨fun _ => [['z']], 2⟩ (St.radd ⟨fun _ => [['z']], 2⟩ ⟨0, 1⟩ ⟨0, 1⟩).1 ⟨0, 1⟩) ∧
    (St.preserved ⟨fun _ => [['z']], 2⟩ (St.or_op ⟨fun _ => [['z']], 2⟩ ⟨0, 1⟩ ⟨0, 1⟩).1 ⟨0, 1⟩ ∧
      St.preserved ⟨fun _ => [['z']], 2⟩ (St.or_op ⟨fun _ => [['z']], 2⟩ ⟨0, 1⟩ ⟨0, 1⟩).1 ⟨0, 1⟩) ∧
    (St.preserved ⟨fun _ => [['z']], 2⟩ (St.ror ⟨fun _ => [['z']], 2⟩ ⟨0, 1⟩ ⟨0, 1⟩).1 ⟨0, 1⟩ ∧
      St.preserved ⟨fun _ => [['z']], 2⟩ (St.ror ⟨fun _ => [['z']], 2⟩ ⟨0, 1⟩ ⟨0, 1⟩).1 ⟨0, 1⟩) := by
  obtain ⟨t1, t2, t3, t4, t5, t6, t7, t8, t9, t10, t11, t12, t13, t14, t15, t16, t17, t18,
    t19, t20, t21, t22, t23⟩ := builder_ops_do_not_mutate_inputs
  have hv : St.valid ⟨fun _ => [['z']], 2⟩ ⟨0, 1⟩ := ⟨by decide, by decide⟩
  exact ⟨t1 _ _ hv, t2 _ _ hv, t3 _ _ hv, t4 _ _ hv, t5 _ _ hv, t6 _ _ hv, t7 _ _ 3 hv,
    t8 _ _ 2 5 hv, t9 _ _ 4 hv, t10 _ _ [['a']] hv, t11 _ _ [['a']] hv, t12 _ _ hv,
    t13 _ _ hv, t14 _ _ ['n'] hv, t15 _ _ hv, t16 _ _ hv, t17 _ _ hv, t18 _ _ hv,
    t19 _ _ _ hv hv, t20 _ _ ['y'] hv, t21 _ _ _ hv hv, t22 _ _ _ hv hv, t23 _ _ _ hv hv⟩
